import Mathlib

set_option autoImplicit false

/-
A shallow embedding of QuantLib's SwaptionVolatilityStructure
(ql/swaptionvolstructure.hpp): the coordinate conversion between
(option date, swap tenor) and (option time, swap length), the range
validation performed before every volatility / Black-variance query,
and the three overload families (time-based, date-based, tenor-based).

Dates are serial day numbers (Int). Time, Rate and Volatility are exact
scalar values, modelled as Int in fixed-point units (times in days, rates
in basis points): every property claimed of the code involves only
ordering and products, which are interpreted identically, and keeping the
scalars integral lets every definition evaluate on concrete inputs.
Fallible operations (QL_REQUIRE throwing) return Except String.
External collaborators absent from the repository (the date arithmetic,
the day counter, the calendar, and the base TermStructure range check)
are modelled from the spec and marked as such on their definitions.
-/

namespace QLSwaption

/-- Time units of a period, from the date library consumed by the surface. -/
inductive TimeUnit where
  | Days
  | Weeks
  | Months
  | Years
deriving DecidableEq

/-- A period (tenor): a signed length together with its time unit. -/
structure Period where
  length : Int
  units : TimeUnit
deriving DecidableEq

/-- Modelled from the spec: the external date arithmetic (the Temporal
Coordinate Provider) advances a date by a period; the property the surface
relies on is that the advanced date is later exactly when the period is
positive. Days are exact, weeks are 7 days, and months and years use
representative day counts. -/
def Period.approxDays : Period → Int
  | ⟨n, TimeUnit.Days⟩ => n
  | ⟨n, TimeUnit.Weeks⟩ => 7 * n
  | ⟨n, TimeUnit.Months⟩ => 30 * n
  | ⟨n, TimeUnit.Years⟩ => 365 * n

/-- Modelled from the spec: date plus period (the advance by tenor used in
convertDates and maxSwapLength). -/
def addPeriod (d : Int) (p : Period) : Int := d + p.approxDays

/-- Modelled from the spec: the order on periods used by the date-based
checkRange when comparing the swap tenor to maxSwapTenor, via the
days-equivalent of each period. -/
def Period.le (p q : Period) : Bool := decide (p.approxDays ≤ q.approxDays)

/-- A smile section: a strike-to-volatility mapping at one fixed
(optionTime, swapLength) coordinate. -/
structure SmileSection where
  volAtStrike : Int → Int

/-- The state and abstract hooks of a SwaptionVolatilityStructure.
The class is abstract; the pure virtual members (maxSwapTenor, minStrike,
maxStrike, the time-based volatilityImpl and the time-based smile-section
factory) and the inherited TermStructure state (reference date, day counter,
calendar, max time, the persistent allow-extrapolation toggle) are fields,
supplied by a concrete surface. -/
structure Surface where
  referenceDate : Int
  maxTime : Int
  allowsExtrapolation : Bool
  yearFraction : Int → Int → Int
  calendarAdvance : Int → Period → Int
  maxSwapTenor : Period
  minStrike : Int
  maxStrike : Int
  volatilityImplT : Int → Int → Int → Int
  smileSectionT : Int → Int → SmileSection

/-- Modelled from the spec: TermStructure::timeFromReference, the conversion
of a date to continuous time from the reference date using the surface's day
counter. -/
def timeFromReference (s : Surface) (d : Int) : Int :=
  s.yearFraction s.referenceDate d

/-- Modelled from the spec: the base term-structure range check (rule 1):
the option time must be non-negative, and within the valid time range unless
the per-call flag or the persistent allow-extrapolation setting permits
extrapolation. -/
def tsCheckRange (s : Surface) (t : Int) (extrapolate : Bool) : Except String Unit :=
  if t < 0 then Except.error "negative time given"
  else if extrapolate || s.allowsExtrapolation || decide (t ≤ s.maxTime) then Except.ok ()
  else Except.error "time is past max curve time"

/-- SwaptionVolatilityStructure::maxSwapLength: the default maximum swap
length, timeFromReference(referenceDate() + maxSwapTenor()). -/
def maxSwapLength (s : Surface) : Int :=
  timeFromReference s (addPeriod s.referenceDate s.maxSwapTenor)

/-- SwaptionVolatilityStructure::convertDates: end = optionDate + swapTenor;
requires end > optionDate, else a domain error; returns
(timeFromReference(optionDate), yearFraction(optionDate, end)). -/
def convertDates (s : Surface) (optionDate : Int) (swapTenor : Period) :
    Except String (Int × Int) :=
  if optionDate < addPeriod optionDate swapTenor then
    Except.ok (timeFromReference s optionDate,
      s.yearFraction optionDate (addPeriod optionDate swapTenor))
  else Except.error "negative swap tenor given"

/-- SwaptionVolatilityStructure::checkRange(Time, Time, Rate, bool):
the base term-structure check on optionTime, then the unconditional
requirement swapLength >= 0, then the max-swapLength and strike-bounds
requirements, each bypassed by the per-call flag or the persistent
allow-extrapolation setting. -/
def checkRangeT (s : Surface) (optionTime swapLength strike : Int)
    (extrapolate : Bool) : Except String Unit :=
  match tsCheckRange s optionTime extrapolate with
  | Except.error e => Except.error e
  | Except.ok _ =>
    if swapLength < 0 then Except.error "negative swapLength given"
    else if extrapolate || s.allowsExtrapolation
        || decide (swapLength ≤ maxSwapLength s) then
      if extrapolate || s.allowsExtrapolation
          || (decide (s.minStrike ≤ strike) && decide (strike ≤ s.maxStrike)) then
        Except.ok ()
      else Except.error "strike is outside the curve domain"
    else Except.error "swapLength is past max curve swapLength"

/-- SwaptionVolatilityStructure::checkRange(Date, Period, Rate, bool):
the base term-structure check on timeFromReference(optionDate), then the
unconditional requirement swapTenor.length() > 0, then the max-tenor and
strike-bounds requirements, each bypassed by the per-call flag or the
persistent allow-extrapolation setting. -/
def checkRangeD (s : Surface) (optionDate : Int) (swapTenor : Period)
    (strike : Int) (extrapolate : Bool) : Except String Unit :=
  match tsCheckRange s (timeFromReference s optionDate) extrapolate with
  | Except.error e => Except.error e
  | Except.ok _ =>
    if swapTenor.length ≤ 0 then Except.error "negative swap tenor given"
    else if extrapolate || s.allowsExtrapolation
        || Period.le swapTenor s.maxSwapTenor then
      if extrapolate || s.allowsExtrapolation
          || (decide (s.minStrike ≤ strike) && decide (strike ≤ s.maxStrike)) then
        Except.ok ()
      else Except.error "strike is outside the curve domain"
    else Except.error "swap tenor is past max tenor"

/-- SwaptionVolatilityStructure::volatility(Time, Time, Rate, bool):
checkRange, then volatilityImpl. -/
def volatilityT (s : Surface) (optionTime swapLength strike : Int)
    (extrapolate : Bool) : Except String Int :=
  match checkRangeT s optionTime swapLength strike extrapolate with
  | Except.error e => Except.error e
  | Except.ok _ => Except.ok (s.volatilityImplT optionTime swapLength strike)

/-- SwaptionVolatilityStructure::blackVariance(Time, Time, Rate, bool):
checkRange, then vol = volatilityImpl; returns vol*vol*optionTime. -/
def blackVarianceT (s : Surface) (optionTime swapLength strike : Int)
    (extrapolate : Bool) : Except String Int :=
  match checkRangeT s optionTime swapLength strike extrapolate with
  | Except.error e => Except.error e
  | Except.ok _ =>
    let vol := s.volatilityImplT optionTime swapLength strike
    Except.ok (vol * vol * optionTime)

/-- SwaptionVolatilityStructure::volatilityImpl(Date, Period, Rate), the
base-class default: convertDates, then the time-based volatilityImpl at the
converted coordinates. -/
def volatilityImplD (s : Surface) (optionDate : Int) (swapTenor : Period)
    (strike : Int) : Except String Int :=
  match convertDates s optionDate swapTenor with
  | Except.error e => Except.error e
  | Except.ok p => Except.ok (s.volatilityImplT p.1 p.2 strike)

/-- SwaptionVolatilityStructure::volatility(Date, Period, Rate, bool):
checkRange, then the date-based volatilityImpl. -/
def volatilityD (s : Surface) (optionDate : Int) (swapTenor : Period)
    (strike : Int) (extrapolate : Bool) : Except String Int :=
  match checkRangeD s optionDate swapTenor strike extrapolate with
  | Except.error e => Except.error e
  | Except.ok _ => volatilityImplD s optionDate swapTenor strike

/-- SwaptionVolatilityStructure::blackVariance(Date, Period, Rate, bool):
vol = volatility(optionDate, swapTenor, strike, extrapolate);
p = convertDates(optionDate, swapTenor); returns vol*vol*p.first. -/
def blackVarianceD (s : Surface) (optionDate : Int) (swapTenor : Period)
    (strike : Int) (extrapolate : Bool) : Except String Int :=
  match volatilityD s optionDate swapTenor strike extrapolate with
  | Except.error e => Except.error e
  | Except.ok vol =>
    match convertDates s optionDate swapTenor with
    | Except.error e => Except.error e
    | Except.ok p => Except.ok (vol * vol * p.1)

/-- SwaptionVolatilityStructure::optionDateFromTenor: the reference date
advanced by the option tenor under the surface's calendar and business day
convention (the calendar advance field folds in the convention). -/
def optionDateFromTenor (s : Surface) (optionTenor : Period) : Int :=
  s.calendarAdvance s.referenceDate optionTenor

/-- SwaptionVolatilityStructure::volatility(Period, Period, Rate, bool):
optionDate = optionDateFromTenor(optionTenor), then the date-based
volatility. -/
def volatilityP (s : Surface) (optionTenor swapTenor : Period) (strike : Int)
    (extrapolate : Bool) : Except String Int :=
  volatilityD s (optionDateFromTenor s optionTenor) swapTenor strike extrapolate

/-- SwaptionVolatilityStructure::blackVariance(Period, Period, Rate, bool):
optionDate = optionDateFromTenor(optionTenor); vol = volatility(optionDate,
swapTenor, strike, extrapolate); p = convertDates(optionDate, swapTenor);
returns vol*vol*p.first. -/
def blackVarianceP (s : Surface) (optionTenor swapTenor : Period) (strike : Int)
    (extrapolate : Bool) : Except String Int :=
  let optionDate := optionDateFromTenor s optionTenor
  match volatilityD s optionDate swapTenor strike extrapolate with
  | Except.error e => Except.error e
  | Except.ok vol =>
    match convertDates s optionDate swapTenor with
    | Except.error e => Except.error e
    | Except.ok p => Except.ok (vol * vol * p.1)

/-- SwaptionVolatilityStructure::smileSection(Date, Period): convertDates,
then the time-based smile-section factory at the converted coordinates, with
no range check of any kind. -/
def smileSectionD (s : Surface) (optionDate : Int) (swapTenor : Period) :
    Except String SmileSection :=
  match convertDates s optionDate swapTenor with
  | Except.error e => Except.error e
  | Except.ok p => Except.ok (s.smileSectionT p.1 p.2)

/-- Whether a fallible result succeeded. -/
def isOk {α : Type} : Except String α → Bool
  | Except.ok _ => true
  | Except.error _ => false

/-- A concrete surface used to witness the theorems: reference date 0,
10 years (3650 days) of valid time, a day counter measuring time in days,
strike domain [0, 100], and a simple implied-volatility hook. -/
def sampleSurface : Surface where
  referenceDate := 0
  maxTime := 3650
  allowsExtrapolation := false
  yearFraction := fun a b => b - a
  calendarAdvance := addPeriod
  maxSwapTenor := ⟨10, TimeUnit.Years⟩
  minStrike := 0
  maxStrike := 100
  volatilityImplT := fun t len k => t + len + k
  smileSectionT := fun t len => ⟨fun k => t + len + k⟩

/-- The days-equivalent of a period is positive exactly when its length is. -/
theorem approxDays_pos (p : Period) : 0 < p.approxDays ↔ 0 < p.length := by
  rcases p with ⟨n, u⟩
  cases u <;> simp only [Period.approxDays] <;> omega

/-- A date advanced by a tenor is strictly later exactly when the tenor
length is positive. -/
theorem addPeriod_lt_iff (d : Int) (p : Period) :
    d < addPeriod d p ↔ 0 < p.length := by
  rw [addPeriod]
  constructor
  · intro h
    exact (approxDays_pos p).mp (by omega)
  · intro h
    have := (approxDays_pos p).mpr h
    omega

/-- convertDates succeeds exactly on positive tenors. -/
theorem convertDates_isOk (s : Surface) (d : Int) (p : Period) :
    isOk (convertDates s d p) = true ↔ 0 < p.length := by
  rw [convertDates]
  split_ifs with h
  · simp only [isOk]
    constructor
    · intro _; exact (addPeriod_lt_iff d p).mp h
    · intro _; trivial
  · simp only [isOk]
    constructor
    · intro hcontra; exact absurd hcontra (by simp)
    · intro hl; exact absurd ((addPeriod_lt_iff d p).mpr hl) h

/-- On a positive tenor, convertDates returns the converted coordinate pair. -/
theorem convertDates_pos (s : Surface) (d : Int) (p : Period) (h : 0 < p.length) :
    convertDates s d p =
      Except.ok (timeFromReference s d, s.yearFraction d (addPeriod d p)) := by
  rw [convertDates]
  rw [if_pos ((addPeriod_lt_iff d p).mpr h)]

/-- The base term-structure check succeeds iff the time is non-negative and
either extrapolation is permitted or the time is within the curve. -/
theorem tsCheckRange_ok_iff (s : Surface) (t : Int) (ext : Bool) :
    tsCheckRange s t ext = Except.ok () ↔
      (0 ≤ t ∧ (ext = true ∨ s.allowsExtrapolation = true ∨ t ≤ s.maxTime)) := by
  rw [tsCheckRange]
  split_ifs with h0 h1
  · constructor
    · intro hcontra; exact hcontra.elim
    · rintro ⟨hl, -⟩; linarith
  · constructor
    · intro _
      simp only [Bool.or_eq_true, decide_eq_true_iff] at h1
      exact ⟨not_lt.mp h0, by tauto⟩
    · intro _; trivial
  · constructor
    · intro hcontra; exact hcontra.elim
    · rintro ⟨-, hK⟩
      simp only [Bool.or_eq_true, decide_eq_true_iff, not_or] at h1
      tauto

/-- The time-based checkRange succeeds iff the base check passes, the swap
length is non-negative, and the max-length and strike rules each pass or are
bypassed by extrapolation. -/
theorem checkRangeT_ok_iff (s : Surface) (t len k : Int) (ext : Bool) :
    checkRangeT s t len k ext = Except.ok () ↔
      (tsCheckRange s t ext = Except.ok () ∧ 0 ≤ len ∧
       (ext = true ∨ s.allowsExtrapolation = true ∨ len ≤ maxSwapLength s) ∧
       (ext = true ∨ s.allowsExtrapolation = true ∨
         (s.minStrike ≤ k ∧ k ≤ s.maxStrike))) := by
  rw [checkRangeT]
  rcases hts : tsCheckRange s t ext with e | u
  · simp [hts]
  · cases u
    simp only [hts, true_and]
    split_ifs with h0 h1 h2
    · constructor
      · intro hcontra; exact hcontra.elim
      · rintro ⟨hl, -, -⟩; linarith
    · constructor
      · intro _
        simp only [Bool.or_eq_true, Bool.and_eq_true, decide_eq_true_iff] at h1 h2
        exact ⟨not_lt.mp h0, by tauto, by tauto⟩
      · intro _; trivial
    · constructor
      · intro hcontra; exact hcontra.elim
      · rintro ⟨-, -, hK⟩
        simp only [Bool.or_eq_true, Bool.and_eq_true, decide_eq_true_iff,
          not_or] at h2
        tauto
    · constructor
      · intro hcontra; exact hcontra.elim
      · rintro ⟨-, hL, -⟩
        simp only [Bool.or_eq_true, decide_eq_true_iff, not_or] at h1
        tauto

/-- The date-based checkRange succeeds iff the base check passes at the
converted option time, the tenor length is positive, and the max-tenor and
strike rules each pass or are bypassed by extrapolation. -/
theorem checkRangeD_ok_iff (s : Surface) (d : Int) (p : Period) (k : Int)
    (ext : Bool) :
    checkRangeD s d p k ext = Except.ok () ↔
      (tsCheckRange s (timeFromReference s d) ext = Except.ok () ∧ 0 < p.length ∧
       (ext = true ∨ s.allowsExtrapolation = true ∨ Period.le p s.maxSwapTenor = true) ∧
       (ext = true ∨ s.allowsExtrapolation = true ∨
         (s.minStrike ≤ k ∧ k ≤ s.maxStrike))) := by
  rw [checkRangeD]
  rcases hts : tsCheckRange s (timeFromReference s d) ext with e | u
  · simp [hts]
  · cases u
    simp only [hts, true_and]
    split_ifs with h0 h1 h2
    · constructor
      · intro hcontra; exact hcontra.elim
      · rintro ⟨hl, -, -⟩; omega
    · constructor
      · intro _
        simp only [Bool.or_eq_true, Bool.and_eq_true, decide_eq_true_iff] at h1 h2
        exact ⟨by omega, by tauto, by tauto⟩
      · intro _; trivial
    · constructor
      · intro hcontra; exact hcontra.elim
      · rintro ⟨-, -, hK⟩
        simp only [Bool.or_eq_true, Bool.and_eq_true, decide_eq_true_iff,
          not_or] at h2
        tauto
    · constructor
      · intro hcontra; exact hcontra.elim
      · rintro ⟨-, hL, -⟩
        simp only [Bool.or_eq_true, not_or] at h1
        tauto

/-- A result is not ok exactly when it cannot be ok. -/
theorem isOk_false_iff {α : Type} (r : Except String α) :
    isOk r = false ↔ (isOk r = true → False) := by
  cases r <;> simp [isOk]

/-- When the time-based checkRange passes, the time-based volatility returns
the raw implementation value. -/
theorem volatilityT_eq (s : Surface) (t len k : Int) (ext : Bool)
    (h : checkRangeT s t len k ext = Except.ok ()) :
    volatilityT s t len k ext = Except.ok (s.volatilityImplT t len k) := by
  simp only [volatilityT, h]

/-- The time-based volatility succeeds exactly when its checkRange passes. -/
theorem volatilityT_isOk_iff (s : Surface) (t len k : Int) (ext : Bool) :
    isOk (volatilityT s t len k ext) = true ↔
      checkRangeT s t len k ext = Except.ok () := by
  rcases h : checkRangeT s t len k ext with e | u
  · simp [volatilityT, h, isOk]
  · cases u
    simp [volatilityT, h, isOk]

/-- The time-based Black variance succeeds exactly when its checkRange
passes. -/
theorem blackVarianceT_isOk_iff (s : Surface) (t len k : Int) (ext : Bool) :
    isOk (blackVarianceT s t len k ext) = true ↔
      checkRangeT s t len k ext = Except.ok () := by
  rcases h : checkRangeT s t len k ext with e | u
  · simp [blackVarianceT, h, isOk]
  · cases u
    simp [blackVarianceT, h, isOk]

/-- When the date-based checkRange passes, the date-based volatility returns
the implementation value at the converted coordinates. -/
theorem volatilityD_eq (s : Surface) (d : Int) (p : Period) (k : Int) (ext : Bool)
    (h : checkRangeD s d p k ext = Except.ok ()) :
    volatilityD s d p k ext =
      Except.ok (s.volatilityImplT (timeFromReference s d)
        (s.yearFraction d (addPeriod d p)) k) := by
  have hp : 0 < p.length := ((checkRangeD_ok_iff s d p k ext).mp h).2.1
  simp only [volatilityD, h, volatilityImplD, convertDates_pos s d p hp]

/-- The date-based volatility succeeds exactly when its checkRange passes. -/
theorem volatilityD_isOk_iff (s : Surface) (d : Int) (p : Period) (k : Int)
    (ext : Bool) :
    isOk (volatilityD s d p k ext) = true ↔
      checkRangeD s d p k ext = Except.ok () := by
  rcases h : checkRangeD s d p k ext with e | u
  · simp [volatilityD, h, isOk]
  · cases u
    simp [volatilityD_eq s d p k ext h, isOk, h]

/-- The date-based Black variance succeeds exactly when its checkRange
passes. -/
theorem blackVarianceD_isOk_iff (s : Surface) (d : Int) (p : Period) (k : Int)
    (ext : Bool) :
    isOk (blackVarianceD s d p k ext) = true ↔
      checkRangeD s d p k ext = Except.ok () := by
  rcases h : checkRangeD s d p k ext with e | u
  · simp [blackVarianceD, volatilityD, h, isOk]
  · cases u
    have hp : 0 < p.length := ((checkRangeD_ok_iff s d p k ext).mp h).2.1
    simp [blackVarianceD, volatilityD_eq s d p k ext h,
      convertDates_pos s d p hp, isOk, h]

/-- C2: for every overload of blackVariance (time-based, date-based,
tenor-based) and every input on which the range checks pass, blackVariance
equals volatility squared times that overload's own optionTime: the
argument optionTime in the time-based form, and the converted optionTime
produced by convertDates (not the instrument time-length) in the date-based
and tenor-based forms. -/
theorem blackVariance_identity (s : Surface) (t len k : Int) (d : Int)
    (optionTenor swapTenor : Period) (ext : Bool) :
    (∀ vol, volatilityT s t len k ext = Except.ok vol →
      blackVarianceT s t len k ext = Except.ok (vol * vol * t)) ∧
    (∀ vol q, volatilityD s d swapTenor k ext = Except.ok vol →
      convertDates s d swapTenor = Except.ok q →
      blackVarianceD s d swapTenor k ext = Except.ok (vol * vol * q.1)) ∧
    (∀ vol q,
      volatilityD s (optionDateFromTenor s optionTenor) swapTenor k ext =
        Except.ok vol →
      convertDates s (optionDateFromTenor s optionTenor) swapTenor =
        Except.ok q →
      blackVarianceP s optionTenor swapTenor k ext =
        Except.ok (vol * vol * q.1)) := by
  refine ⟨?_, ?_, ?_⟩
  · intro vol hv
    have hc : checkRangeT s t len k ext = Except.ok () :=
      (volatilityT_isOk_iff s t len k ext).mp (by rw [hv]; rfl)
    have hv2 := volatilityT_eq s t len k ext hc
    rw [hv] at hv2
    injection hv2 with hveq
    simp only [blackVarianceT, hc]
    rw [hveq]
  · intro vol q hv hq
    simp only [blackVarianceD, hv, hq]
  · intro vol q hv hq
    simp only [blackVarianceP, hv, hq]

/-- Witness for C2: concrete evaluations of the three overloads on the
sample surface. -/
theorem blackVariance_identity_witness :
    blackVarianceT sampleSurface 100 200 50 false =
      Except.ok (350 * 350 * 100) ∧
    blackVarianceD sampleSurface 100 ⟨5, TimeUnit.Years⟩ 50 false =
      Except.ok (1975 * 1975 * 100) ∧
    blackVarianceP sampleSurface ⟨1, TimeUnit.Years⟩ ⟨5, TimeUnit.Years⟩ 50
        false =
      Except.ok (2240 * 2240 * 365) :=
  ⟨(blackVariance_identity sampleSurface 100 200 50 100 ⟨1, TimeUnit.Years⟩
      ⟨5, TimeUnit.Years⟩ false).1 350 (by rfl),
   (blackVariance_identity sampleSurface 100 200 50 100 ⟨1, TimeUnit.Years⟩
      ⟨5, TimeUnit.Years⟩ false).2.1 1975 (100, 1825) (by rfl) (by rfl),
   (blackVariance_identity sampleSurface 100 200 50 100 ⟨1, TimeUnit.Years⟩
      ⟨5, TimeUnit.Years⟩ false).2.2 2240 (365, 1825) (by rfl) (by rfl)⟩

/-- C3: convertDates raises a domain error exactly when the advanced end
date does not lie strictly after the option date (hence on every
non-positive tenor, with no extrapolation bypass possible, as it takes no
extrapolation flag), and otherwise returns the pair of the time from
reference of the option date and the day-count year fraction from the
option date to the end date. -/
theorem convertDates_spec (s : Surface) (d : Int) (p : Period) :
    (isOk (convertDates s d p) = false ↔ addPeriod d p ≤ d) ∧
    (p.length ≤ 0 → isOk (convertDates s d p) = false) ∧
    (d < addPeriod d p →
      convertDates s d p =
        Except.ok (timeFromReference s d, s.yearFraction d (addPeriod d p))) := by
  refine ⟨?_, ?_, ?_⟩
  · rw [convertDates]
    split_ifs with h
    · simp only [isOk]
      constructor
      · intro hcontra; exact absurd hcontra (by simp)
      · intro hle; exact absurd hle (by omega)
    · simp only [isOk]
      constructor
      · intro _; omega
      · intro _; trivial
  · intro hl
    have h' : ¬ d < addPeriod d p := fun hlt =>
      absurd ((addPeriod_lt_iff d p).mp hlt) (by omega)
    rw [convertDates, if_neg h']
    rfl
  · intro h
    rw [convertDates, if_pos h]

/-- Witness for C3: a negative one-day tenor is rejected and a five-year
tenor converts on the sample surface. -/
theorem convertDates_spec_witness :
    isOk (convertDates sampleSurface 0 ⟨-1, TimeUnit.Days⟩) = false ∧
    convertDates sampleSurface 0 ⟨5, TimeUnit.Years⟩ = Except.ok (0, 1825) :=
  ⟨(convertDates_spec sampleSurface 0 ⟨-1, TimeUnit.Days⟩).2.1 (by decide),
   (convertDates_spec sampleSurface 0 ⟨5, TimeUnit.Years⟩).2.2 (by decide)⟩

/-- C7: the tenor-based volatility and blackVariance overloads return
exactly what the date-based overloads return at the option date produced by
optionDateFromTenor, which is the reference date advanced by the option
tenor under the surface's calendar and business day convention. -/
theorem tenor_overloads_delegate (s : Surface) (optionTenor swapTenor : Period)
    (k : Int) (ext : Bool) :
    optionDateFromTenor s optionTenor =
      s.calendarAdvance s.referenceDate optionTenor ∧
    volatilityP s optionTenor swapTenor k ext =
      volatilityD s (optionDateFromTenor s optionTenor) swapTenor k ext ∧
    blackVarianceP s optionTenor swapTenor k ext =
      blackVarianceD s (optionDateFromTenor s optionTenor) swapTenor k ext :=
  ⟨rfl, rfl, rfl⟩

/-- C8: the default maxSwapLength is the conversion of maxSwapTenor via the
reference date, and coincides with the time-length component convertDates
produces for (referenceDate, maxSwapTenor). -/
theorem maxSwapLength_default (s : Surface) :
    maxSwapLength s =
      timeFromReference s (addPeriod s.referenceDate s.maxSwapTenor) ∧
    (∀ q, convertDates s s.referenceDate s.maxSwapTenor = Except.ok q →
      q.2 = maxSwapLength s) := by
  refine ⟨rfl, ?_⟩
  intro q hq
  rw [convertDates] at hq
  split_ifs at hq with h
  injection hq with h2
  rw [← h2]
  rfl

/-- Witness for C8: on the sample surface the converted pair's time-length
component equals maxSwapLength. -/
theorem maxSwapLength_default_witness :
    ((0 : Int), (3650 : Int)).2 = maxSwapLength sampleSurface :=
  (maxSwapLength_default sampleSurface).2 (0, 3650) (by rfl)

/-- C10: the date-based smileSection performs no range check: it fails
exactly when convertDates fails, and on every positive tenor it returns the
time-based factory's section at the converted coordinates, for every
surface whatever its strike bounds, maximum tenor or valid time range. -/
theorem smileSection_no_checkRange (s : Surface) (d : Int) (p : Period) :
    isOk (smileSectionD s d p) = isOk (convertDates s d p) ∧
    (0 < p.length →
      smileSectionD s d p =
        Except.ok (s.smileSectionT (timeFromReference s d)
          (s.yearFraction d (addPeriod d p)))) := by
  constructor
  · rcases h : convertDates s d p with e | q
    · simp [smileSectionD, h, isOk]
    · simp [smileSectionD, h, isOk]
  · intro hp
    simp only [smileSectionD, convertDates_pos s d p hp]

/-- Witness for C10: the sample surface's smile section at a two-month
tenor. -/
theorem smileSection_no_checkRange_witness :
    smileSectionD sampleSurface 7 ⟨2, TimeUnit.Months⟩ =
      Except.ok (sampleSurface.smileSectionT 7 60) :=
  (smileSection_no_checkRange sampleSurface 7 ⟨2, TimeUnit.Months⟩).2 (by decide)

/-- C1 counterexample: the two entry points do not treat a zero instrument
coordinate identically: the time-based checkRange accepts swapLength 0
(requiring only swapLength >= 0) while the date-based checkRange rejects a
zero-length tenor (requiring swapTenor.length() > 0), even with the
extrapolation flag set. -/
theorem checkRange_rule2_not_identical :
    checkRangeT sampleSurface 100 0 50 true = Except.ok () ∧
    checkRangeD sampleSurface 100 ⟨0, TimeUnit.Days⟩ 50 true =
      Except.error "negative swap tenor given" :=
  ⟨by rfl, by rfl⟩

/-- C1 (amended): rule 2 is unconditional at both entry points, firing even
when the per-call flag or the persistent allow-extrapolation setting is on;
the time-based entry rejects exactly negative swap lengths (zero is
accepted), while the date-based entry rejects exactly non-positive tenors
(zero included). -/
theorem checkRange_rule2_unconditional (s : Surface) (t len k : Int)
    (d : Int) (p : Period) (ext : Bool) :
    (len < 0 → tsCheckRange s t ext = Except.ok () →
      checkRangeT s t len k ext = Except.error "negative swapLength given") ∧
    (0 ≤ len → (ext = true ∨ s.allowsExtrapolation = true) →
      tsCheckRange s t ext = Except.ok () →
      checkRangeT s t len k ext = Except.ok ()) ∧
    (p.length ≤ 0 → tsCheckRange s (timeFromReference s d) ext = Except.ok () →
      checkRangeD s d p k ext = Except.error "negative swap tenor given") ∧
    (0 < p.length → (ext = true ∨ s.allowsExtrapolation = true) →
      tsCheckRange s (timeFromReference s d) ext = Except.ok () →
      checkRangeD s d p k ext = Except.ok ()) := by
  refine ⟨?_, ?_, ?_, ?_⟩
  · intro hl hts
    simp [checkRangeT, hts, hl]
  · intro hl hperm hts
    rw [checkRangeT_ok_iff]
    exact ⟨hts, hl, by tauto, by tauto⟩
  · intro hl hts
    simp [checkRangeD, hts, hl]
  · intro hl hperm hts
    rw [checkRangeD_ok_iff]
    exact ⟨hts, hl, by tauto, by tauto⟩

/-- Witness for the amended C1: the four cases on the sample surface. -/
theorem checkRange_rule2_unconditional_witness :
    checkRangeT sampleSurface 100 (-1) 50 true =
      Except.error "negative swapLength given" ∧
    checkRangeT sampleSurface 100 0 50 true = Except.ok () ∧
    checkRangeD sampleSurface 100 ⟨-2, TimeUnit.Years⟩ 50 true =
      Except.error "negative swap tenor given" ∧
    checkRangeD sampleSurface 100 ⟨1, TimeUnit.Days⟩ 50 true = Except.ok () :=
  ⟨(checkRange_rule2_unconditional sampleSurface 100 (-1) 50 100
      ⟨-2, TimeUnit.Years⟩ true).1 (by decide) (by rfl),
   (checkRange_rule2_unconditional sampleSurface 100 0 50 100
      ⟨1, TimeUnit.Days⟩ true).2.1 (by decide) (Or.inl rfl) (by rfl),
   (checkRange_rule2_unconditional sampleSurface 100 0 50 100
      ⟨-2, TimeUnit.Years⟩ true).2.2.1 (by decide) (by rfl),
   (checkRange_rule2_unconditional sampleSurface 100 0 50 100
      ⟨1, TimeUnit.Days⟩ true).2.2.2 (by decide) (Or.inl rfl) (by rfl)⟩

/-- C4: with the base class's default date-based volatilityImpl, the
date-based volatility overload returns exactly the time-based overload's
value at the coordinates produced by convertDates, whenever both entry
points' range checks pass. -/
theorem volatility_date_matches_time (s : Surface) (d : Int) (p : Period)
    (k : Int) (ext : Bool) (q : Int × Int)
    (hc : convertDates s d p = Except.ok q)
    (h1 : checkRangeD s d p k ext = Except.ok ())
    (h2 : checkRangeT s q.1 q.2 k ext = Except.ok ()) :
    volatilityD s d p k ext = volatilityT s q.1 q.2 k ext := by
  simp only [volatilityD, h1, volatilityImplD, hc, volatilityT, h2]

/-- Witness for C4: the date-based and time-based overloads agree at a
five-year tenor on the sample surface. -/
theorem volatility_date_matches_time_witness :
    volatilityD sampleSurface 100 ⟨5, TimeUnit.Years⟩ 50 false =
      volatilityT sampleSurface ((100 : Int), (1825 : Int)).1
        ((100 : Int), (1825 : Int)).2 50 false :=
  volatility_date_matches_time sampleSurface 100 ⟨5, TimeUnit.Years⟩ 50 false
    (100, 1825) (by rfl) (by rfl) (by rfl)

/-- C5: with the persistent allow-extrapolation setting off, a strike
within bounds and an option time passing the base check, a query with
swapLength exactly maxSwapLength succeeds with extrapolate = false, a query
with swapLength strictly greater fails with extrapolate = false, and the
same strictly-greater query succeeds with extrapolate = true. -/
theorem extrapolation_gating (s : Surface) (t k len : Int)
    (hallow : s.allowsExtrapolation = false)
    (hmax : 0 ≤ maxSwapLength s)
    (hk1 : s.minStrike ≤ k) (hk2 : k ≤ s.maxStrike)
    (hts : tsCheckRange s t false = Except.ok ())
    (hlen : maxSwapLength s < len) :
    isOk (volatilityT s t (maxSwapLength s) k false) = true ∧
    isOk (volatilityT s t len k false) = false ∧
    isOk (volatilityT s t len k true) = true := by
  refine ⟨?_, ?_, ?_⟩
  · rw [volatilityT_isOk_iff, checkRangeT_ok_iff]
    exact ⟨hts, hmax, Or.inr (Or.inr le_rfl), Or.inr (Or.inr ⟨hk1, hk2⟩)⟩
  · have hnot : ¬ checkRangeT s t len k false = Except.ok () := by
      rw [checkRangeT_ok_iff]
      rintro ⟨-, -, hA, -⟩
      rcases hA with h | h | h
      · exact Bool.noConfusion h
      · rw [hallow] at h; exact Bool.noConfusion h
      · omega
    rw [isOk_false_iff, volatilityT_isOk_iff]
    exact fun hh => hnot hh
  · have hts2 : tsCheckRange s t true = Except.ok () := by
      rw [tsCheckRange_ok_iff] at hts ⊢
      exact ⟨hts.1, Or.inl rfl⟩
    rw [volatilityT_isOk_iff, checkRangeT_ok_iff]
    exact ⟨hts2, by omega, Or.inl rfl, Or.inl rfl⟩

/-- Witness for C5: gating at and beyond maxSwapLength on the sample
surface. -/
theorem extrapolation_gating_witness :
    isOk (volatilityT sampleSurface 100 (maxSwapLength sampleSurface) 50
      false) = true ∧
    isOk (volatilityT sampleSurface 100 4000 50 false) = false ∧
    isOk (volatilityT sampleSurface 100 4000 50 true) = true :=
  extrapolation_gating sampleSurface 100 50 4000 rfl (by decide) (by decide)
    (by decide) (by rfl) (by decide)

/-- C6: at either entry point, once the maturity is in range and the
instrument coordinate is valid and within its maximum, a strike strictly
outside [minStrike, maxStrike] makes the volatility and blackVariance
queries fail exactly when both the per-call flag and the persistent
allow-extrapolation setting are off, and a strike equal to either bound
always passes. -/
theorem strike_gating (s : Surface) (t len k : Int) (d : Int) (p : Period)
    (ext : Bool)
    (hts : tsCheckRange s t ext = Except.ok ())
    (htsd : tsCheckRange s (timeFromReference s d) ext = Except.ok ())
    (hlen : 0 ≤ len) (hp : 0 < p.length)
    (hminmax : s.minStrike ≤ s.maxStrike)
    (hlmax : len ≤ maxSwapLength s)
    (hpmax : Period.le p s.maxSwapTenor = true) :
    ((k < s.minStrike ∨ s.maxStrike < k) →
      ((isOk (volatilityT s t len k ext) = false ∧
        isOk (blackVarianceT s t len k ext) = false ∧
        isOk (volatilityD s d p k ext) = false ∧
        isOk (blackVarianceD s d p k ext) = false) ↔
       (ext = false ∧ s.allowsExtrapolation = false))) ∧
    ((k = s.minStrike ∨ k = s.maxStrike) →
      (isOk (volatilityT s t len k ext) = true ∧
       isOk (blackVarianceT s t len k ext) = true ∧
       isOk (volatilityD s d p k ext) = true ∧
       isOk (blackVarianceD s d p k ext) = true)) := by
  constructor
  · intro hout
    constructor
    · rintro ⟨hf, -, -, -⟩
      cases hext : ext
      · cases hal : s.allowsExtrapolation
        · exact ⟨rfl, rfl⟩
        · exfalso
          have hok : checkRangeT s t len k ext = Except.ok () := by
            rw [checkRangeT_ok_iff]
            exact ⟨hts, hlen, Or.inr (Or.inl hal), Or.inr (Or.inl hal)⟩
          have := (volatilityT_isOk_iff s t len k ext).mpr hok
          rw [hf] at this
          exact Bool.noConfusion this
      · exfalso
        have hok : checkRangeT s t len k ext = Except.ok () := by
          rw [checkRangeT_ok_iff]
          exact ⟨hts, hlen, Or.inl hext, Or.inl hext⟩
        have := (volatilityT_isOk_iff s t len k ext).mpr hok
        rw [hf] at this
        exact Bool.noConfusion this
    · rintro ⟨hext, hal⟩
      have hnotT : ¬ checkRangeT s t len k ext = Except.ok () := by
        rw [checkRangeT_ok_iff]
        rintro ⟨-, -, -, hK⟩
        rcases hK with h | h | h
        · rw [hext] at h; exact Bool.noConfusion h
        · rw [hal] at h; exact Bool.noConfusion h
        · rcases hout with ho | ho <;> omega
      have hnotD : ¬ checkRangeD s d p k ext = Except.ok () := by
        rw [checkRangeD_ok_iff]
        rintro ⟨-, -, -, hK⟩
        rcases hK with h | h | h
        · rw [hext] at h; exact Bool.noConfusion h
        · rw [hal] at h; exact Bool.noConfusion h
        · rcases hout with ho | ho <;> omega
      refine ⟨?_, ?_, ?_, ?_⟩
      · rw [isOk_false_iff, volatilityT_isOk_iff]
        exact fun hh => hnotT hh
      · rw [isOk_false_iff, blackVarianceT_isOk_iff]
        exact fun hh => hnotT hh
      · rw [isOk_false_iff, volatilityD_isOk_iff]
        exact fun hh => hnotD hh
      · rw [isOk_false_iff, blackVarianceD_isOk_iff]
        exact fun hh => hnotD hh
  · intro hbound
    have hkin : s.minStrike ≤ k ∧ k ≤ s.maxStrike := by
      rcases hbound with h | h <;> rw [h] <;> exact ⟨by omega, by omega⟩
    have hokT : checkRangeT s t len k ext = Except.ok () := by
      rw [checkRangeT_ok_iff]
      exact ⟨hts, hlen, Or.inr (Or.inr hlmax), Or.inr (Or.inr hkin)⟩
    have hokD : checkRangeD s d p k ext = Except.ok () := by
      rw [checkRangeD_ok_iff]
      exact ⟨htsd, hp, Or.inr (Or.inr hpmax), Or.inr (Or.inr hkin)⟩
    exact ⟨(volatilityT_isOk_iff s t len k ext).mpr hokT,
      (blackVarianceT_isOk_iff s t len k ext).mpr hokT,
      (volatilityD_isOk_iff s d p k ext).mpr hokD,
      (blackVarianceD_isOk_iff s d p k ext).mpr hokD⟩

/-- Witness for C6: on the sample surface, strike 200 (out of bounds) fails
without extrapolation and strike 100 (the upper bound) passes. -/
theorem strike_gating_witness :
    isOk (volatilityT sampleSurface 100 200 200 false) = false ∧
    isOk (volatilityT sampleSurface 100 200 100 false) = true :=
  ⟨(((strike_gating sampleSurface 100 200 200 100 ⟨5, TimeUnit.Years⟩ false
      (by rfl) (by rfl) (by decide) (by decide) (by decide) (by decide)
      (by rfl)).1 (Or.inr (by decide))).mpr ⟨rfl, rfl⟩).1,
   ((strike_gating sampleSurface 100 200 100 100 ⟨5, TimeUnit.Years⟩ false
      (by rfl) (by rfl) (by decide) (by decide) (by decide) (by decide)
      (by rfl)).2 (Or.inr (by decide))).1⟩

end QLSwaption
